import Mathlib

/-!
Verification development for the SGC repository (src/sgc.py), a single-page
Streamlit spell-and-grammar checking tool.  The pure glue code of the
check-button handler (text statistics, tokenization, the diff loop, the
error collection, and the result rendering) is embedded shallowly below;
the two external NLP libraries (PySpellChecker and TextBlob) are modelled
as oracles whose calls may either return a value or raise an exception,
mirroring the try/except blocks of the source.
-/

namespace SGC

/-- One flagged error, the dict appended by the source with keys
word / type / suggestions (lines 120-124 and 142-146 of sgc.py). -/
structure CheckError where
  word : String
  type : String
  suggestions : List String
deriving DecidableEq, Repr

/-- Oracle for the PySpellChecker library: `unknown` (line 116) and
`candidates` (line 119); an `Except.error` models the library raising,
which the source catches at line 125. -/
structure SpellLib where
  unknown : List String → Except String (List String)
  candidates : String → Except String (List String)

/-- Oracle for the TextBlob grammar correction (lines 132-133):
`correct text` is `str(TextBlob(text).correct())`; an `Except.error`
models the library raising, caught at line 150. -/
structure GrammarLib where
  correct : String → Except String String

/-- The two external libraries together. -/
structure Libs where
  spell : SpellLib
  grammar : GrammarLib

/-- The four sidebar checkboxes (lines 68-71 of sgc.py). -/
structure Config where
  check_spelling : Bool
  check_grammar : Bool
  show_suggestions : Bool
  highlight_errors : Bool
deriving DecidableEq, Repr

/-- Python `text.split()` (no separator): split on runs of whitespace,
dropping empty tokens.  `cur` is the reversed current token. -/
def pySplitGo : List Char → List Char → List String
  | cur, [] => if cur.isEmpty then [] else [String.mk cur.reverse]
  | cur, c :: cs =>
    if c.isWhitespace then
      if cur.isEmpty then pySplitGo [] cs
      else String.mk cur.reverse :: pySplitGo [] cs
    else pySplitGo (c :: cur) cs

/-- Python `text.split()`, used at lines 96, 136, 137 of sgc.py. -/
def pySplit (s : String) : List String := pySplitGo [] s.data

/-- Python `text.strip()` (lines 112 and 129): drop whitespace from both
ends. -/
def pyStrip (s : String) : String :=
  String.mk (((s.data.dropWhile Char.isWhitespace).reverse.dropWhile
    Char.isWhitespace).reverse)

/-- Python `str.lower()` on one character, for the ASCII range the source
deals in: map `A`-`Z` to `a`-`z` and leave everything else alone. -/
def pyCharLower (c : Char) : Char :=
  if 'A' ≤ c && c ≤ 'Z' then Char.ofNat (c.toNat + 32) else c

/-- Python `text.lower()` (lines 115, 141), character by character. -/
def pyLower (s : String) : String := String.mk (s.data.map pyCharLower)

/-- Python `sep.join(parts)` (lines 168 and 177). -/
def pyJoin (sep : String) : List String → String
  | [] => ""
  | [s] => s
  | s :: ss => s ++ sep ++ pyJoin sep ss

/-- Modelled from the spec: the number of whitespace-separated tokens of a
string, counted directly as the number of maximal non-whitespace runs
(so consecutive whitespace contributes no empty token).  `inTok` records
whether the scan is currently inside a token. -/
def specTokenCount : Bool → List Char → Nat
  | _, [] => 0
  | inTok, c :: cs =>
    if c.isWhitespace then specTokenCount false cs
    else if inTok then specTokenCount true cs
    else specTokenCount true cs + 1

/-- Membership in the character class of the sentence-counting regex at
line 98 of sgc.py: a full stop, an exclamation mark or a question mark. -/
def isSentencePunct (c : Char) : Bool := c == '.' || c == '!' || c == '?'

/-- Line 98 of sgc.py applies re.findall with the pattern `[.!?]+` and
takes the length: the number of maximal runs of sentence punctuation. -/
def sentenceRuns : Bool → List Char → Nat
  | _, [] => 0
  | inRun, c :: cs =>
    if isSentencePunct c then
      if inRun then sentenceRuns true cs
      else sentenceRuns true cs + 1
    else sentenceRuns false cs

/-- An ASCII letter, the character class `[a-zA-Z]` of line 115. -/
def isAsciiLetter (c : Char) : Bool :=
  ( 'a' ≤ c && c ≤ 'z') || ( 'A' ≤ c && c ≤ 'Z')

/-- A regex word character `[a-zA-Z0-9_]`, as used by the `\b` anchors of
line 115. -/
def isWordChar (c : Char) : Bool := isAsciiLetter c || c.isDigit || c == '_'

/-- Scanner for the re.findall call of line 115, whose pattern is an
ASCII letter run between two word-boundary anchors: a match is
a maximal run of ASCII letters whose neighbouring characters (when they
exist) are not word characters, which is what the two `\b` anchors demand.
`prevWord` records whether the previous character was a word character;
`cur` is the pending letter run paired with whether its left boundary was
acceptable. -/
def findWordsGo : Bool → Option (String × Bool) → List Char → List String
  | _, cur, [] =>
    match cur with
    | some (s, true) => [s]
    | _ => []
  | prevWord, cur, c :: cs =>
    if isAsciiLetter c then
      match cur with
      | some (s, ok) => findWordsGo true (some (s.push c, ok)) cs
      | none => findWordsGo true (some (c.toString, !prevWord)) cs
    else
      let rest := findWordsGo (isWordChar c) none cs
      match cur with
      | some (s, ok) => if ok && !(isWordChar c) then s :: rest else rest
      | none => rest

/-- The word list built by the re.findall call of line 115 of sgc.py. -/
def findWords (s : String) : List String := findWordsGo false none s.data

/-- The loop of lines 118-124: for each misspelled word, fetch candidates
(`list(...)[:3]`, hence `take 3`) and append an error dict.  A raising
`candidates` call aborts the loop; since `spelling_errors` is mutated by
`append`, the entries appended before the exception survive, so this
helper returns them together with the exception message, exactly as the
mutable list would hold them. -/
def collectSpelling (lib : SpellLib) : List String → List CheckError × Option String
  | [] => ([], none)
  | w :: ws =>
    match lib.candidates w with
    | Except.error e => ([], some e)
    | Except.ok cs =>
      let rest := collectSpelling lib ws
      ({ word := w, type := "Spelling", suggestions := cs.take 3 } :: rest.1, rest.2)

/-- The spell-checking try block, lines 113-126 of sgc.py. -/
def spellPhase (lib : SpellLib) (text : String) : List CheckError × Option String :=
  match lib.unknown (findWords (pyLower text)) with
  | Except.error e => ([], some e)
  | Except.ok misspelled => collectSpelling lib misspelled

/-- The grammar-checking try block, lines 130-151 of sgc.py: returns the
grammar errors, the published corrected text, and the exception message if
the library raised.  On an exception, `grammar_errors` and
`corrected_text` keep their initial values (lines 92-93). -/
def grammarPhase (lib : GrammarLib) (text : String) :
    List CheckError × String × Option String :=
  match lib.correct text with
  | Except.error e => ([], text, some e)
  | Except.ok corrected =>
    let original_words := pySplit text
    let corrected_words := pySplit corrected
    let errs :=
      if original_words.length = corrected_words.length then
        ((original_words.zip corrected_words).filter
            (fun p => pyLower p.1 != pyLower p.2)).map
          (fun p => { word := p.1, type := "Grammar", suggestions := [p.2] })
      else []
    (errs, corrected, none)

/-- Everything the check-button handler computes (lines 89-151). -/
structure CheckResult where
  word_count : Nat
  char_count : Nat
  sentence_count : Nat
  spelling_errors : List CheckError
  grammar_errors : List CheckError
  corrected_text : String
  spell_msg : Option String
  grammar_msg : Option String
deriving DecidableEq, Repr

/-- The computation of the check-button handler (lines 89-151 of sgc.py):
statistics from the raw text, then the two guarded try blocks.  The
guards `check_spelling and user_text.strip()` (line 112) and
`check_grammar and user_text.strip()` (line 129) are modelled by
`cfg.check_spelling && pyStrip text != ""` and likewise for grammar. -/
def runCheck (libs : Libs) (cfg : Config) (text : String) : CheckResult :=
  let sp :=
    if cfg.check_spelling && pyStrip text != "" then spellPhase libs.spell text
    else ([], none)
  let gr :=
    if cfg.check_grammar && pyStrip text != "" then grammarPhase libs.grammar text
    else ([], text, none)
  { word_count := (pySplit text).length
    char_count := text.length
    sentence_count := sentenceRuns false text.data
    spelling_errors := sp.1
    grammar_errors := gr.1
    corrected_text := gr.2.1
    spell_msg := sp.2
    grammar_msg := gr.2.2 }

/-- One item rendered to the results panel.  Each constructor corresponds
to one Streamlit display call of lines 100-188 of sgc.py (`st.metric`,
`st.error`, `st.success`, `st.warning`, `st.subheader`, `st.write`,
`st.text_area`); the purely decorative markdown div wrappers are not
modelled. -/
inductive RItem where
  | metric (label : String) (value : Nat)
  | inlineError (msg : String)
  | successMsg (msg : String)
  | warningMsg (msg : String)
  | subheader (title : String)
  | line (s : String)
  | textArea (label content : String)
deriving DecidableEq, Repr

/-- The error box rendered for one spelling error (lines 164-169):
the word, and the suggestions when `show_suggestions` is on and the
suggestion list is truthy (non-empty). -/
def spellingBox (cfg : Config) (err : CheckError) : List RItem :=
  [RItem.line ( "**Word:** " ++ err.word)] ++
    (if cfg.show_suggestions && !err.suggestions.isEmpty then
      [RItem.line ( "**Suggestions:** " ++ pyJoin ", " err.suggestions)]
    else [])

/-- The error box rendered for one grammar correction (lines 173-178). -/
def grammarBox (cfg : Config) (err : CheckError) : List RItem :=
  [RItem.line ( "**Original:** " ++ err.word)] ++
    (if cfg.show_suggestions && !err.suggestions.isEmpty then
      [RItem.line ( "**Suggestion:** " ++ pyJoin ", " err.suggestions)]
    else [])

/-- The two error subsections of lines 162-178: a subheader plus the boxes,
each section only when its list is non-empty. -/
def errorSection (cfg : Config) (res : CheckResult) : List RItem :=
  (if !res.spelling_errors.isEmpty then
    RItem.subheader "🔤 Spelling Errors" :: res.spelling_errors.flatMap (spellingBox cfg)
  else []) ++
  (if !res.grammar_errors.isEmpty then
    RItem.subheader "📖 Grammar Corrections" :: res.grammar_errors.flatMap (grammarBox cfg)
  else [])

/-- The full results panel for one click (lines 100-188 of sgc.py): the
three statistics metrics, then the inline library error messages in the
order the try blocks run, then the summary and error sections, then the
suggested correction, which is shown only when the corrected text differs
from the input (line 181). -/
def renderResults (cfg : Config) (text : String) (res : CheckResult) : List RItem :=
  [RItem.metric "Words" res.word_count,
   RItem.metric "Characters" res.char_count,
   RItem.metric "Sentences" res.sentence_count] ++
  (match res.spell_msg with
    | some e => [RItem.inlineError ( "Spelling check error: " ++ e)]
    | none => []) ++
  (match res.grammar_msg with
    | some e => [RItem.inlineError ( "Grammar check error: " ++ e)]
    | none => []) ++
  (if res.spelling_errors.length + res.grammar_errors.length = 0 then
    [RItem.successMsg "✅ No errors found! Your text looks good."]
  else
    RItem.warningMsg ( "⚠️ Found " ++
        toString (res.spelling_errors.length + res.grammar_errors.length) ++
        " potential error(s)") ::
      errorSection cfg res) ++
  (if res.corrected_text != text then
    [RItem.subheader "✏️ Suggested Correction",
     RItem.line res.corrected_text,
     RItem.textArea "Corrected text (copy this):" res.corrected_text]
  else [])

/-- The results column for one click of the check button (line 89): the
handler runs only when `user_text` is truthy (non-empty) and renders
`renderResults` of the computed `runCheck`. -/
def renderPage (libs : Libs) (cfg : Config) (text : String) : List RItem :=
  if text != "" then renderResults cfg text (runCheck libs cfg text) else []

/-- A whole session: the page is a pure function of the settings
and text of each click, re-run from scratch on every click (the only state reused across
clicks is the cached library handles, part of `libs`). -/
def runSession (libs : Libs) (clicks : List (Config × String)) : List CheckResult :=
  clicks.map (fun c => runCheck libs c.1 c.2)

/-- Concrete library oracles and configurations used for witnesses and
counterexamples. -/
def sLibOk : SpellLib := ⟨fun _ => Except.ok [], fun _ => Except.ok []⟩

/-- A spell oracle that flags `helo` and offers five candidates for every
word. -/
def sLibHelo : SpellLib :=
  ⟨fun _ => Except.ok [ "helo"],
   fun _ => Except.ok [ "hello", "help", "hell", "helot", "halo"]⟩

/-- A spell oracle whose `unknown` call raises. -/
def sLibBoom : SpellLib := ⟨fun _ => Except.error "boom", fun _ => Except.ok []⟩

/-- A grammar oracle whose `correct` call raises. -/
def gLibBoom : GrammarLib := ⟨fun _ => Except.error "bam"⟩

/-- A grammar oracle that corrects every text to `b`. -/
def gLibB : GrammarLib := ⟨fun _ => Except.ok "b"⟩

/-- A grammar oracle that corrects every text to `x y`. -/
def gLibXY : GrammarLib := ⟨fun _ => Except.ok "x y"⟩

/-- A grammar oracle that corrects every text to `the cat`. -/
def gLibTheCat : GrammarLib := ⟨fun _ => Except.ok "the cat"⟩

/-- The identity grammar oracle: the corrected text is the input. -/
def gLibId : GrammarLib := ⟨fun s => Except.ok s⟩

/-- All four checkboxes ticked, the default of lines 68-71. -/
def cfgAll : Config := ⟨true, true, true, true⟩

/-- Like `cfgAll` with the Check Grammar box unticked. -/
def cfgNoGrammar : Config := ⟨true, false, true, true⟩

/-- The spelling half of the published results: what the spell-check block
(lines 112-126) wrote. -/
def spellView (res : CheckResult) : List CheckError × Option String :=
  (res.spelling_errors, res.spell_msg)

/-- The grammar half of the published results: what the grammar-check block
(lines 129-151) wrote. -/
def grammarView (res : CheckResult) : List CheckError × String × Option String :=
  (res.grammar_errors, res.corrected_text, res.grammar_msg)

/-! ## Supporting lemmas -/

theorem pySplitGo_length (l : List Char) : ∀ cur : List Char,
    (pySplitGo cur l).length =
      (if cur.isEmpty then 0 else 1) + specTokenCount (!cur.isEmpty) l := by
  induction l with
  | nil =>
    intro cur
    by_cases h : cur.isEmpty <;> simp [pySplitGo, specTokenCount, h]
  | cons c cs ih =>
    intro cur
    by_cases hw : c.isWhitespace <;> by_cases hc : cur.isEmpty <;>
      simp [pySplitGo, specTokenCount, hw, hc, ih] <;> omega

/-! ## Claims -/

/-- C1: for every checked input, the reported word count equals the number
of whitespace-separated tokens of the input, counting maximal
non-whitespace runs so that consecutive whitespace contributes no empty
token. -/
theorem word_count_counts_tokens (libs : Libs) (cfg : Config) (text : String) :
    (runCheck libs cfg text).word_count = specTokenCount false text.data := by
  have h := pySplitGo_length text.data []
  simpa [runCheck, pySplit] using h

/-- C3 as stated is false: flipping the Check Grammar toggle alone changes
the computed corrected text, so the four checkboxes are not all pure
display options. -/
theorem check_grammar_toggle_changes_analysis :
    (runCheck ⟨sLibOk, gLibB⟩ cfgAll "a").corrected_text = "b" ∧
      (runCheck ⟨sLibOk, gLibB⟩ cfgNoGrammar "a").corrected_text = "a" ∧
      ( "b" : String) ≠ "a" :=
  ⟨rfl, rfl, by decide⟩

/-- C3 (amended): the Show Suggestions and Highlight Errors checkboxes are
display options — the computed analysis depends only on the Check Spelling
and Check Grammar toggles — while the latter two enable or disable the
corresponding computations and can change the analysis. -/
theorem analysis_depends_only_on_check_toggles (libs : Libs) (c₁ c₂ : Config)
    (text : String) (hs : c₁.check_spelling = c₂.check_spelling)
    (hg : c₁.check_grammar = c₂.check_grammar) :
    runCheck libs c₁ text = runCheck libs c₂ text := by
  obtain ⟨s₁, g₁, u₁, h₁⟩ := c₁
  obtain ⟨s₂, g₂, u₂, h₂⟩ := c₂
  simp only [Config.check_spelling] at hs
  simp only [Config.check_grammar] at hg
  subst hs; subst hg
  rfl

/-- Witness for the amended C3 at a concrete input. -/
theorem analysis_depends_only_on_check_toggles_witness :
    runCheck ⟨sLibOk, gLibB⟩ ⟨true, true, true, true⟩ "a" =
      runCheck ⟨sLibOk, gLibB⟩ ⟨true, true, false, false⟩ "a" :=
  analysis_depends_only_on_check_toggles ⟨sLibOk, gLibB⟩ _ _ "a" rfl rfl

/-- C5: if the grammar library raises, the published corrected text stays
equal to the input and the grammar-error list stays empty. -/
theorem grammar_exception_leaves_state (libs : Libs) (cfg : Config) (text e : String)
    (h : libs.grammar.correct text = Except.error e) :
    (runCheck libs cfg text).corrected_text = text ∧
      (runCheck libs cfg text).grammar_errors = [] := by
  by_cases hg : (cfg.check_grammar && pyStrip text != "") = true
  · simp [runCheck, hg, grammarPhase, h]
  · simp [runCheck, hg]

/-- Witness for C5 at a concrete raising grammar library. -/
theorem grammar_exception_leaves_state_witness :
    (runCheck ⟨sLibOk, gLibBoom⟩ cfgAll "teh cat").corrected_text = "teh cat" ∧
      (runCheck ⟨sLibOk, gLibBoom⟩ cfgAll "teh cat").grammar_errors = [] :=
  grammar_exception_leaves_state ⟨sLibOk, gLibBoom⟩ cfgAll "teh cat" "bam" rfl

/-- C7: each click recomputes the analysis from its own settings and text
alone, so two clicks of a session with the same settings and text (and the
same library behaviour) publish identical results. -/
theorem same_click_same_result (libs : Libs) (clicks : List (Config × String))
    (i j : Nat) (h : clicks[i]? = clicks[j]?) :
    (runSession libs clicks)[i]? = (runSession libs clicks)[j]? := by
  simp [runSession, List.getElem?_map, h]

/-- Witness for C7: two identical clicks in a concrete session. -/
theorem same_click_same_result_witness :
    (runSession ⟨sLibOk, gLibB⟩ [(cfgAll, "a b"), (cfgAll, "a b")])[0]? =
      (runSession ⟨sLibOk, gLibB⟩ [(cfgAll, "a b"), (cfgAll, "a b")])[1]? :=
  same_click_same_result ⟨sLibOk, gLibB⟩ [(cfgAll, "a b"), (cfgAll, "a b")] 0 1 rfl

/-- C8: the Highlight Errors checkbox is read at line 71 and never used
again, so flipping it changes nothing in the rendered page. -/
theorem highlight_toggle_no_effect (libs : Libs) (cfg : Config) (text : String)
    (b : Bool) :
    renderPage libs { cfg with highlight_errors := b } text =
      renderPage libs cfg text := rfl

theorem collectSpelling_suggestions_le (lib : SpellLib) (ws : List String) :
    ∀ err ∈ (collectSpelling lib ws).1, err.suggestions.length ≤ 3 := by
  induction ws with
  | nil => simp [collectSpelling]
  | cons w ws ih =>
    intro err herr
    simp only [collectSpelling] at herr
    cases hc : lib.candidates w with
    | error e => rw [hc] at herr; simp at herr
    | ok cs =>
      rw [hc] at herr
      simp only [List.mem_cons] at herr
      rcases herr with h | h
      · subst h
        simp only [List.length_take]
        omega
      · exact ih err h

theorem spellPhase_suggestions_le (lib : SpellLib) (text : String) :
    ∀ err ∈ (spellPhase lib text).1, err.suggestions.length ≤ 3 := by
  intro err herr
  unfold spellPhase at herr
  cases h : lib.unknown (findWords (pyLower text)) with
  | error e => rw [h] at herr; simp at herr
  | ok ms => rw [h] at herr; exact collectSpelling_suggestions_le lib ms err herr

/-- C9: every spelling-error entry carries at most three candidate
suggestions, because the source truncates with `list(...)[:3]`. -/
theorem spelling_suggestions_at_most_three (libs : Libs) (cfg : Config)
    (text : String) :
    ∀ err ∈ (runCheck libs cfg text).spelling_errors,
      err.suggestions.length ≤ 3 := by
  intro err herr
  have hr : (runCheck libs cfg text).spelling_errors =
      (if cfg.check_spelling && pyStrip text != "" then spellPhase libs.spell text
       else ([], none)).1 := rfl
  rw [hr] at herr
  by_cases hs : (cfg.check_spelling && pyStrip text != "") = true
  · rw [if_pos hs] at herr
    exact spellPhase_suggestions_le libs.spell text err herr
  · rw [if_neg hs] at herr
    simp at herr

/-- Witness for C9: a concrete check in which the spell oracle offers five
candidates and the published entry keeps three. -/
theorem spelling_suggestions_at_most_three_witness :
    (⟨ "helo", "Spelling", [ "hello", "help", "hell"]⟩ : CheckError).suggestions.length ≤ 3 :=
  spelling_suggestions_at_most_three ⟨sLibHelo, gLibId⟩ cfgAll "helo"
    ⟨ "helo", "Spelling", [ "hello", "help", "hell"]⟩ (by decide)

theorem grammarPhase_entries (lib : GrammarLib) (text : String) :
    (∀ err ∈ (grammarPhase lib text).1,
        ∃ c, err.suggestions = [c] ∧ pyLower c ≠ pyLower err.word) ∧
      ((pySplit text).length ≠ (pySplit (grammarPhase lib text).2.1).length →
        (grammarPhase lib text).1 = []) := by
  unfold grammarPhase
  cases h : lib.correct text with
  | error e => simp
  | ok corrected =>
    simp only []
    by_cases hl : (pySplit text).length = (pySplit corrected).length
    · rw [if_pos hl]
      constructor
      · intro err herr
        simp only [List.mem_map, List.mem_filter] at herr
        obtain ⟨p, ⟨hp1, hp2⟩, hpe⟩ := herr
        subst hpe
        refine ⟨p.2, rfl, ?_⟩
        intro hEq
        rw [hEq] at hp2
        simp at hp2
      · intro hne
        exact absurd hl hne
    · rw [if_neg hl]
      simp

/-- C10: every grammar-correction entry pairs the original word with
exactly one replacement that differs from it case-insensitively, and no
entries are produced when the original and corrected texts have different
numbers of whitespace-separated words. -/
theorem grammar_entries_shape (libs : Libs) (cfg : Config) (text : String) :
    (∀ err ∈ (runCheck libs cfg text).grammar_errors,
        ∃ c, err.suggestions = [c] ∧ pyLower c ≠ pyLower err.word) ∧
      ((pySplit text).length ≠
          (pySplit (runCheck libs cfg text).corrected_text).length →
        (runCheck libs cfg text).grammar_errors = []) := by
  have hr : (runCheck libs cfg text).grammar_errors =
      (if cfg.check_grammar && pyStrip text != "" then grammarPhase libs.grammar text
       else ([], text, none)).1 := rfl
  have hc : (runCheck libs cfg text).corrected_text =
      (if cfg.check_grammar && pyStrip text != "" then grammarPhase libs.grammar text
       else ([], text, none)).2.1 := rfl
  rw [hr, hc]
  by_cases hg : (cfg.check_grammar && pyStrip text != "") = true
  · rw [if_pos hg]
    exact grammarPhase_entries libs.grammar text
  · rw [if_neg hg]
    simp

/-- Witness for C10: a concrete check in which the oracle corrects
`teh cat` to `the cat` produces the entry pairing `teh` with `the`. -/
theorem grammar_entries_shape_witness :
    ∃ c, (⟨ "teh", "Grammar", [ "the"]⟩ : CheckError).suggestions = [c] ∧
      pyLower c ≠ pyLower (⟨ "teh", "Grammar", [ "the"]⟩ : CheckError).word :=
  (grammar_entries_shape ⟨sLibOk, gLibTheCat⟩ cfgAll "teh cat").1
    ⟨ "teh", "Grammar", [ "the"]⟩ (by decide)

/-- Modelled from the spec words for the grammar output: walk the original
and corrected word lists position by position and emit one entry, pairing
the original word with the corrected one, at each position where the two
words differ case-insensitively. -/
def positionDiffs : List String → List String → List CheckError
  | o :: os, c :: cs =>
    if pyLower o ≠ pyLower c then
      { word := o, type := "Grammar", suggestions := [c] } :: positionDiffs os cs
    else positionDiffs os cs
  | _, _ => []

theorem filter_zip_eq_positionDiffs :
    ∀ (xs ys : List String),
      (((xs.zip ys).filter (fun p => pyLower p.1 != pyLower p.2)).map
        (fun p => ({ word := p.1, type := "Grammar", suggestions := [p.2] } : CheckError)))
      = positionDiffs xs ys := by
  intro xs
  induction xs with
  | nil => intro ys; simp [positionDiffs]
  | cons x xs ih =>
    intro ys
    cases ys with
    | nil => simp [positionDiffs]
    | cons y ys =>
      by_cases h : pyLower x = pyLower y <;>
        simp [positionDiffs, h, List.filter_cons, ih]

/-- C2 as stated is false: when the corrected text has a different number
of words, no entries are produced even at positions where the words
differ. -/
theorem grammar_diff_skipped_on_length_mismatch :
    (runCheck ⟨sLibOk, gLibXY⟩ cfgAll "ab").corrected_text = "x y" ∧
      (pySplit "ab")[0]? = some "ab" ∧
      (pySplit "x y")[0]? = some "x" ∧
      ( "ab" : String) ≠ "x" ∧
      (runCheck ⟨sLibOk, gLibXY⟩ cfgAll "ab").grammar_errors = [] := by
  decide

/-- C2 (amended): when the grammar check runs and the library returns a
corrected text, the displayed grammar output has one entry for each word
position at which the original and corrected words differ
case-insensitively — provided the two texts have the same number of
whitespace-separated words; otherwise the output is empty. -/
theorem grammar_output_positionwise (libs : Libs) (cfg : Config)
    (text corrected : String) (hg : cfg.check_grammar = true)
    (ht : pyStrip text ≠ "")
    (hok : libs.grammar.correct text = Except.ok corrected) :
    (runCheck libs cfg text).grammar_errors =
      if (pySplit text).length = (pySplit corrected).length then
        positionDiffs (pySplit text) (pySplit corrected)
      else [] := by
  have hcond : (cfg.check_grammar && pyStrip text != "") = true := by
    simp [hg, bne_iff_ne, ht]
  have hr : (runCheck libs cfg text).grammar_errors =
      (if cfg.check_grammar && pyStrip text != "" then grammarPhase libs.grammar text
       else ([], text, none)).1 := rfl
  rw [hr, if_pos hcond]
  unfold grammarPhase
  rw [hok]
  dsimp only
  by_cases hl : (pySplit text).length = (pySplit corrected).length
  · rw [if_pos hl, if_pos hl]
    exact filter_zip_eq_positionDiffs _ _
  · rw [if_neg hl, if_neg hl]

/-- Witness for the amended C2 at a concrete correcting oracle. -/
theorem grammar_output_positionwise_witness :
    (runCheck ⟨sLibOk, gLibTheCat⟩ cfgAll "teh cat").grammar_errors =
      if (pySplit "teh cat").length = (pySplit "the cat").length then
        positionDiffs (pySplit "teh cat") (pySplit "the cat")
      else [] :=
  grammar_output_positionwise ⟨sLibOk, gLibTheCat⟩ cfgAll "teh cat" "the cat"
    rfl (by decide) rfl

/-- C4: the two try blocks are independent and each surfaces its caught
exception as an inline message: the grammar half of the results does not
depend on the spell library at all (so a spelling exception neither
prevents nor alters the grammar check), the spelling half does not depend
on the grammar library, and each caught exception message is rendered
inline. -/
theorem library_errors_isolated_and_surfaced (s₁ s₂ : SpellLib)
    (g₁ g₂ : GrammarLib) (cfg : Config) (text : String) :
    grammarView (runCheck ⟨s₁, g₁⟩ cfg text) =
        grammarView (runCheck ⟨s₂, g₁⟩ cfg text) ∧
      spellView (runCheck ⟨s₁, g₁⟩ cfg text) =
        spellView (runCheck ⟨s₁, g₂⟩ cfg text) ∧
      (∀ e, text ≠ "" → (runCheck ⟨s₁, g₁⟩ cfg text).spell_msg = some e →
        RItem.inlineError ( "Spelling check error: " ++ e) ∈
          renderPage ⟨s₁, g₁⟩ cfg text) ∧
      (∀ e, text ≠ "" → (runCheck ⟨s₁, g₁⟩ cfg text).grammar_msg = some e →
        RItem.inlineError ( "Grammar check error: " ++ e) ∈
          renderPage ⟨s₁, g₁⟩ cfg text) := by
  refine ⟨rfl, rfl, ?_, ?_⟩
  · intro e ht hmsg
    have hbne : (text != "") = true := by simpa [bne_iff_ne] using ht
    unfold renderPage
    rw [if_pos hbne]
    unfold renderResults
    rw [hmsg]
    simp [List.mem_append]
  · intro e ht hmsg
    have hbne : (text != "") = true := by simpa [bne_iff_ne] using ht
    unfold renderPage
    rw [if_pos hbne]
    unfold renderResults
    rw [hmsg]
    simp [List.mem_append]

/-- Witness for C4: both oracles raise and both messages are rendered. -/
theorem library_errors_isolated_and_surfaced_witness :
    RItem.inlineError "Spelling check error: boom" ∈
        renderPage ⟨sLibBoom, gLibBoom⟩ cfgAll "hi" ∧
      RItem.inlineError "Grammar check error: bam" ∈
        renderPage ⟨sLibBoom, gLibBoom⟩ cfgAll "hi" :=
  ⟨(library_errors_isolated_and_surfaced sLibBoom sLibBoom gLibBoom gLibBoom
      cfgAll "hi").2.2.1 "boom" (by decide) (by decide),
    (library_errors_isolated_and_surfaced sLibBoom sLibBoom gLibBoom gLibBoom
      cfgAll "hi").2.2.2 "bam" (by decide) (by decide)⟩

theorem noSubheader_spellingBox (cfg : Config) (err : CheckError) (t : String) :
    RItem.subheader t ∉ spellingBox cfg err := by
  unfold spellingBox
  by_cases h : (cfg.show_suggestions && !err.suggestions.isEmpty) = true <;> simp [h]

theorem noSubheader_grammarBox (cfg : Config) (err : CheckError) (t : String) :
    RItem.subheader t ∉ grammarBox cfg err := by
  unfold grammarBox
  by_cases h : (cfg.show_suggestions && !err.suggestions.isEmpty) = true <;> simp [h]

theorem subheader_mem_errorSection (cfg : Config) (res : CheckResult) (t : String) :
    RItem.subheader t ∈ errorSection cfg res ↔
      (t = "🔤 Spelling Errors" ∧ res.spelling_errors ≠ []) ∨
        (t = "📖 Grammar Corrections" ∧ res.grammar_errors ≠ []) := by
  unfold errorSection
  cases hse : res.spelling_errors with
  | nil =>
    cases hge : res.grammar_errors with
    | nil => simp
    | cons gx gxs =>
      simp [List.mem_append, List.mem_flatMap, noSubheader_grammarBox]
  | cons sx sxs =>
    cases hge : res.grammar_errors with
    | nil =>
      simp [List.mem_append, List.mem_flatMap, noSubheader_spellingBox]
    | cons gx gxs =>
      simp [List.mem_append, List.mem_flatMap, noSubheader_spellingBox,
        noSubheader_grammarBox]

theorem renderResults_structure (cfg : Config) (text : String) (res : CheckResult) :
    RItem.metric "Words" res.word_count ∈ renderResults cfg text res ∧
      RItem.metric "Characters" res.char_count ∈ renderResults cfg text res ∧
      RItem.metric "Sentences" res.sentence_count ∈ renderResults cfg text res ∧
      (res.spelling_errors ≠ [] →
        RItem.subheader "🔤 Spelling Errors" ∈ renderResults cfg text res) ∧
      (res.grammar_errors ≠ [] →
        RItem.subheader "📖 Grammar Corrections" ∈ renderResults cfg text res) ∧
      (RItem.subheader "✏️ Suggested Correction" ∈ renderResults cfg text res ↔
        res.corrected_text ≠ text) := by
  unfold renderResults
  refine ⟨by simp, by simp, by simp, ?_, ?_, ?_⟩
  · intro hne
    have h0 : ¬(res.spelling_errors.length + res.grammar_errors.length = 0) := by
      simp [List.length_eq_zero]
      intro h; exact absurd h hne
    simp [h0, List.mem_append, subheader_mem_errorSection, hne]
  · intro hne
    have h0 : ¬(res.spelling_errors.length + res.grammar_errors.length = 0) := by
      simp [List.length_eq_zero]
      intro _ h; exact absurd h hne
    simp [h0, List.mem_append, subheader_mem_errorSection, hne]
  · by_cases hct : (res.corrected_text != text) = true
    · have hne : res.corrected_text ≠ text := by simpa [bne_iff_ne] using hct
      simp only [hct, if_pos]
      constructor
      · intro _; exact hne
      · intro _
        simp [List.mem_append]
    · have heq : res.corrected_text = text := by
        simpa [bne_iff_ne] using hct
      simp only [hct]
      constructor
      · intro hmem
        exfalso
        by_cases h0 : res.spelling_errors.length + res.grammar_errors.length = 0 <;>
          cases hsm : res.spell_msg <;> cases hgm : res.grammar_msg <;>
            simp [h0, hsm, hgm, List.mem_append, subheader_mem_errorSection] at hmem
      · intro hne; exact absurd heq hne

/-- C6 as stated is false: when the library-corrected text equals the
input, no corrected-text suggestion panel is rendered at all. -/
theorem corrected_text_not_always_displayed :
    (runCheck ⟨sLibOk, gLibId⟩ cfgAll "hello").corrected_text = "hello" ∧
      RItem.subheader "✏️ Suggested Correction" ∉
        renderPage ⟨sLibOk, gLibId⟩ cfgAll "hello" := by
  decide

/-- C6 (amended): for every checked (non-empty) input the tool displays
the three statistics; it displays the flagged spelling and grammar errors
whenever any were found; and it displays the corrected-text suggestion
exactly when the corrected text differs from the input. -/
theorem results_display_structure (libs : Libs) (cfg : Config) (text : String)
    (ht : text ≠ "") :
    RItem.metric "Words" (runCheck libs cfg text).word_count ∈
        renderPage libs cfg text ∧
      RItem.metric "Characters" (runCheck libs cfg text).char_count ∈
        renderPage libs cfg text ∧
      RItem.metric "Sentences" (runCheck libs cfg text).sentence_count ∈
        renderPage libs cfg text ∧
      ((runCheck libs cfg text).spelling_errors ≠ [] →
        RItem.subheader "🔤 Spelling Errors" ∈ renderPage libs cfg text) ∧
      ((runCheck libs cfg text).grammar_errors ≠ [] →
        RItem.subheader "📖 Grammar Corrections" ∈ renderPage libs cfg text) ∧
      (RItem.subheader "✏️ Suggested Correction" ∈ renderPage libs cfg text ↔
        (runCheck libs cfg text).corrected_text ≠ text) := by
  have hbne : (text != "") = true := by simpa [bne_iff_ne] using ht
  unfold renderPage
  rw [if_pos hbne]
  exact renderResults_structure cfg text (runCheck libs cfg text)

/-- Witness for the amended C6: a check that flags a spelling error and
changes the text renders the statistics, the error section and the
suggestion panel. -/
theorem results_display_structure_witness :
    RItem.metric "Words" (runCheck ⟨sLibHelo, gLibTheCat⟩ cfgAll "helo").word_count ∈
        renderPage ⟨sLibHelo, gLibTheCat⟩ cfgAll "helo" ∧
      RItem.subheader "🔤 Spelling Errors" ∈
        renderPage ⟨sLibHelo, gLibTheCat⟩ cfgAll "helo" ∧
      RItem.subheader "✏️ Suggested Correction" ∈
        renderPage ⟨sLibHelo, gLibTheCat⟩ cfgAll "helo" := by
  have h := results_display_structure ⟨sLibHelo, gLibTheCat⟩ cfgAll "helo" (by decide)
  exact ⟨h.1, h.2.2.2.1 (by decide), h.2.2.2.2.2.mpr (by decide)⟩

end SGC

